import Mathlib

/-!
Shallow embedding of the typico `pyfield` package (constraints, field and
model descriptors, bindings and the validation engine), translated from
`src/typico/pyfield/{constraints,pyfield,pymodel,bindings,pydantic_adapter}.py`.

Modelling conventions:
* Python numbers (int/float) are embedded as integers and rationals; float
  values are modelled as the rationals they denote (no NaN/infinity arise in
  the verified paths).
* Python stdlib behaviour that the repository merely calls (the `re` module,
  `str()` rendering of arbitrary objects, `datetime.now()`) is abstracted
  into a `PyRuntime` record of uninterpreted functions; every theorem is
  universally quantified over it.
* Python dicts appearing as metadata are modelled as association lists with
  string keys (all keys used by the code are strings).
-/

/-- A segment of a validation error location path: a field name or an index
(`loc: tuple[str | int, ...]` in `bindings.py`). -/
inductive LocStep where
  | s (v : String)
  | i (n : ℤ)

/-- Embedded Python values as they flow through the pyfield layer. -/
inductive PyValue where
  | none
  | bool (b : Bool)
  | int (n : ℤ)
  | float (q : ℚ)
  | decimal (q : ℚ)
  | str (s : String)
  | list (xs : List PyValue)
  | tuple (xs : List PyValue)
  | set (xs : List PyValue)
  | dict (xs : List (String × PyValue))

/-- Is the value Python `None` (`value is None`)? -/
def PyValue.isNone : PyValue → Bool
  | .none => true
  | _ => false

/-- Numeric view used by `isinstance(value, int | float)`: Python `bool` is a
subclass of `int`, while `Decimal` is neither. -/
def PyValue.asNumber : PyValue → Option ℚ
  | .bool b => some (if b then 1 else 0)
  | .int n => some (n : ℚ)
  | .float q => some q
  | _ => Option.none

/-- Numeric view used by Python `==`: `bool`, `int`, `float` and `Decimal`
all compare numerically with each other. -/
def PyValue.asEqNumber : PyValue → Option ℚ
  | .bool b => some (if b then 1 else 0)
  | .int n => some (n : ℚ)
  | .float q => some q
  | .decimal q => some q
  | _ => Option.none

mutual

/-- Python `==` on embedded values (numeric cross-type equality, structural
equality for strings and containers, extensional equality for sets/dicts). -/
def pyEq : PyValue → PyValue → Bool
  | .none, .none => true
  | .str a, .str b => a == b
  | .list a, .list b => pyEqList a b
  | .tuple a, .tuple b => pyEqList a b
  | .set a, .set b => pySubset a b && pySubset b a
  | .dict a, .dict b => pyDictSub a b && pyDictSub b a
  | a, b =>
    match a.asEqNumber, b.asEqNumber with
    | some x, some y => x == y
    | _, _ => false
termination_by a b => sizeOf a + sizeOf b
decreasing_by all_goals (simp_wf <;> omega)

/-- Elementwise Python `==` on sequences. -/
def pyEqList : List PyValue → List PyValue → Bool
  | [], [] => true
  | a :: as_, b :: bs => pyEq a b && pyEqList as_ bs
  | _, _ => false
termination_by xs ys => sizeOf xs + sizeOf ys
decreasing_by all_goals (simp_wf <;> omega)

/-- Every element of the first list equals (Python `==`) some element of the
second list. -/
def pySubset : List PyValue → List PyValue → Bool
  | [], _ => true
  | a :: as_, b => pyMemL a b && pySubset as_ b
termination_by xs b => sizeOf xs + sizeOf b
decreasing_by all_goals (simp_wf <;> omega)

/-- Python `in` on a sequence: membership via `==`. -/
def pyMemL : PyValue → List PyValue → Bool
  | _, [] => false
  | a, b :: bs => pyEq a b || pyMemL a bs
termination_by a bs => sizeOf a + sizeOf bs
decreasing_by all_goals (simp_wf <;> omega)

/-- Dict inclusion via key lookup and Python `==` on values. -/
def pyDictSub : List (String × PyValue) → List (String × PyValue) → Bool
  | [], _ => true
  | (k, v) :: rest, b => pyDictLook k v b && pyDictSub rest b
termination_by a b => sizeOf a + sizeOf b
decreasing_by all_goals (simp_wf <;> omega)

/-- First entry of the dict with the given key has a `==`-equal value. -/
def pyDictLook : String → PyValue → List (String × PyValue) → Bool
  | _, _, [] => false
  | k, v, (k2, w) :: rest => if k == k2 then pyEq v w else pyDictLook k v rest
termination_by k v b => sizeOf v + sizeOf b
decreasing_by all_goals (simp_wf <;> omega)

end

/-- Abstract interface to Python-runtime behaviour that the repository calls
but does not implement: `re.match`, `str()`, and `datetime.now()`. -/
structure PyRuntime where
  reMatch : String → String → Bool
  pyStr : PyValue → String
  showRat : ℚ → String
  now : PyValue
  nowTime : PyValue

/-- Python `%` on numbers: `x - m * floor(x / m)` (sign follows the divisor). -/
def pymod (x m : ℚ) : ℚ := x - m * (⌊x / m⌋ : ℚ)

/-- Python `int()` applied to a number: truncation toward zero. -/
def pyIntOfRat (q : ℚ) : ℤ := if q < 0 then -⌊-q⌋ else ⌊q⌋

/-- Python `" " * n` for an integer `n` (empty for non-positive `n`). -/
def spacesStr (n : ℤ) : String := String.mk (List.replicate n.toNat ' ')

/-- Python `repr` of a field/model name (the `!r` format); exact for names
without quote or escape characters, which is the only use in the code. -/
def pyRepr (s : String) : String := "'" ++ s ++ "'"

/-- Embedding of `Constraints` (`constraints.py`); numeric bounds are held as
the rationals they denote. -/
structure Constraints where
  min_value : Option ℚ := Option.none
  max_value : Option ℚ := Option.none
  exclusive_min : Bool := false
  exclusive_max : Bool := false
  multiple_of : Option ℚ := Option.none
  min_length : Option ℤ := Option.none
  max_length : Option ℤ := Option.none
  pattern : Option String := Option.none
  min_items : Option ℤ := Option.none
  max_items : Option ℤ := Option.none
  allowed_values : Option (List PyValue) := Option.none

/-- The fields of `fieldz.Constraints` that `Constraints.from_fieldz` reads
(the comparison-operator dialect). -/
structure FieldzConstraints where
  gt : Option ℚ := Option.none
  ge : Option ℚ := Option.none
  lt : Option ℚ := Option.none
  le : Option ℚ := Option.none
  multiple_of : Option ℚ := Option.none
  min_length : Option ℤ := Option.none
  max_length : Option ℤ := Option.none
  pattern : Option String := Option.none

/-- Embedding of `Constraints.from_fieldz` (`constraints.py` lines 48-81);
the `Option` on the argument models the `if not fieldz_constraints` check. -/
def Constraints.from_fieldz (fzc : Option FieldzConstraints) : Constraints :=
  match fzc with
  | Option.none => {}
  | some fz =>
    { min_value :=
        match fz.gt with
        | some g => some g
        | Option.none => fz.ge
      exclusive_min := fz.gt.isSome
      max_value :=
        match fz.lt with
        | some l => some l
        | Option.none => fz.le
      exclusive_max := fz.lt.isSome
      multiple_of := fz.multiple_of
      min_length := fz.min_length
      max_length := fz.max_length
      pattern := fz.pattern }

/-- Embedding of `PyField` (`pyfield.py` lines 61-108).  `default` uses
`Option`: `Option.none` is the `MISSING_VALUE` sentinel, `some v` a real
default (possibly the Python `None` value).  The `parent_model`/`raw_type`
class references of the source are represented by the `TypeTag` view of the
annotation that `get_initial_value` inspects. -/
inductive TypeTag where
  | str
  | int
  | float
  | bool
  | decimal
  | date
  | datetime
  | time
  | noneType
  | literal (vals : List PyValue)
  | unionT (args : List TypeTag)
  | listT
  | dictT
  | setT
  | tupleT
  | enumT (members : List PyValue)
  | modelClass (ctor : Option PyValue)
  | other

/-- Is this tag `type(None)` (used by the `t is not type(None)` filter)? -/
def TypeTag.isNoneType : TypeTag → Bool
  | .noneType => true
  | _ => false

structure PyField where
  name : String
  raw_type : TypeTag := TypeTag.other
  field_type : Option String := Option.none
  title : Option String := Option.none
  description : Option String := Option.none
  placeholder : Option String := Option.none
  examples : Option (List PyValue) := Option.none
  hidden : Bool := false
  readonly : Bool := false
  deprecated : Bool := false
  is_required : Bool := true
  default : Option PyValue := Option.none
  constraints : Constraints := {}
  metadata : List (String × PyValue) := []

/-- Embedding of the `PyField.has_default` property: the default is not the
`MISSING_VALUE` sentinel. -/
def PyField.has_default (f : PyField) : Bool := f.default.isSome

/-- A live Python object viewed as its attribute dictionary. -/
structure PyInstance where
  attrs : List (String × PyValue)

/-- Python `getattr(obj, name, None)`. -/
def PyInstance.getattrD (inst : PyInstance) (name : String) : PyValue :=
  (inst.attrs.lookup name).getD PyValue.none

/-- Embedding of `FieldBinding` (`bindings.py` lines 53-63). -/
structure FieldBinding where
  field : PyField
  inst : PyInstance
  ui_state : List (String × PyValue) := []

/-- Embedding of the `FieldBinding.value` getter:
`getattr(self.instance, self.field.name, None)`. -/
def FieldBinding.value (b : FieldBinding) : PyValue :=
  b.inst.getattrD b.field.name

/-- Embedding of `ValidationErrorDetail` (`bindings.py` lines 12-20).
Numeric context values are carried as `PyValue.float` rationals. -/
structure ValidationErrorDetail where
  type : String := "value_error"
  msg : String := "Validation error"
  loc : List LocStep := []
  input_value : PyValue := PyValue.none
  ctx : List (String × PyValue) := []

/-- Every detail `FieldBinding.validate` constructs has
`loc=(field.name,)` and `input_value=value`; this helper captures that
shared shape of the ten construction sites. -/
def mkDetail (ty msg : String) (name : String) (value : PyValue)
    (ctx : List (String × PyValue)) : ValidationErrorDetail :=
  { type := ty, msg := msg, loc := [LocStep.s name], input_value := value, ctx := ctx }

/-- The `# Number constraints` block of `FieldBinding.validate`
(`bindings.py` lines 120-173), guarded by `isinstance(value, int | float)`. -/
def numberChecks (rt : PyRuntime) (c : Constraints) (name : String)
    (value : PyValue) : List ValidationErrorDetail :=
  match value.asNumber with
  | Option.none => []
  | some q =>
    (match c.min_value with
     | some m =>
       if c.exclusive_min && q ≤ m then
         [mkDetail "value_error.number.not_gt"
           ("Must be greater than " ++ rt.showRat m) name value
           [("limit_value", PyValue.float m)]]
       else if !c.exclusive_min && q < m then
         [mkDetail "value_error.number.not_ge"
           ("Must be greater than or equal to " ++ rt.showRat m) name value
           [("limit_value", PyValue.float m)]]
       else []
     | Option.none => []) ++
    (match c.max_value with
     | some m =>
       if c.exclusive_max && q ≥ m then
         [mkDetail "value_error.number.not_lt"
           ("Must be less than " ++ rt.showRat m) name value
           [("limit_value", PyValue.float m)]]
       else if !c.exclusive_max && q > m then
         [mkDetail "value_error.number.not_le"
           ("Must be less than or equal to " ++ rt.showRat m) name value
           [("limit_value", PyValue.float m)]]
       else []
     | Option.none => []) ++
    (match c.multiple_of with
     | some m =>
       if pymod q m ≠ 0 then
         [mkDetail "value_error.number.not_multiple"
           ("Must be a multiple of " ++ rt.showRat m) name value
           [("multiple_of", PyValue.float m)]]
       else []
     | Option.none => [])

/-- The `# String constraints` block of `FieldBinding.validate`
(`bindings.py` lines 175-208), guarded by `isinstance(value, str)`. -/
def stringChecks (rt : PyRuntime) (c : Constraints) (name : String)
    (value : PyValue) : List ValidationErrorDetail :=
  match value with
  | .str s =>
    (match c.min_length with
     | some n =>
       if (s.length : ℤ) < n then
         [mkDetail "value_error.string.min_length"
           ("Must be at least " ++ toString n ++ " characters") name value
           [("min_length", PyValue.int n)]]
       else []
     | Option.none => []) ++
    (match c.max_length with
     | some n =>
       if (s.length : ℤ) > n then
         [mkDetail "value_error.string.max_length"
           ("Must be at most " ++ toString n ++ " characters") name value
           [("max_length", PyValue.int n)]]
       else []
     | Option.none => []) ++
    (match c.pattern with
     | some p =>
       if !rt.reMatch p s then
         [mkDetail "value_error.string.pattern"
           ("Must match pattern: " ++ p) name value
           [("pattern", PyValue.str p)]]
       else []
     | Option.none => [])
  | _ => []

/-- The `# Collection constraints` block of `FieldBinding.validate`
(`bindings.py` lines 210-230), guarded by `isinstance(value, list | tuple | set)`. -/
def collectionChecks (c : Constraints) (name : String)
    (value : PyValue) : List ValidationErrorDetail :=
  match value with
  | .list xs | .tuple xs | .set xs =>
    (match c.min_items with
     | some n =>
       if (xs.length : ℤ) < n then
         [mkDetail "value_error.collection.min_items"
           ("Must have at least " ++ toString n ++ " items") name value
           [("min_items", PyValue.int n)]]
       else []
     | Option.none => []) ++
    (match c.max_items with
     | some n =>
       if (xs.length : ℤ) > n then
         [mkDetail "value_error.collection.max_items"
           ("Must have at most " ++ toString n ++ " items") name value
           [("max_items", PyValue.int n)]]
       else []
     | Option.none => [])
  | _ => []

/-- The `# Check allowed values` block of `FieldBinding.validate`
(`bindings.py` lines 232-245). -/
def enumCheck (rt : PyRuntime) (c : Constraints) (name : String)
    (value : PyValue) : List ValidationErrorDetail :=
  match c.allowed_values with
  | some vals =>
    if !pyMemL value vals then
      [mkDetail "value_error.not_in_enum"
        ("Value must be one of: " ++ String.intercalate ", " (vals.map rt.pyStr))
        name value
        [("allowed_values", PyValue.list vals)]]
    else []
  | Option.none => []

/-- Embedding of `FieldBinding.validate` (`bindings.py` lines 90-247). -/
def FieldBinding.validate (b : FieldBinding) (rt : PyRuntime) :
    List ValidationErrorDetail :=
  let value := b.value
  let field := b.field
  if value.isNone && !field.has_default && field.is_required then
    [mkDetail "value_error.missing" "This field is required" field.name value []]
  else if value.isNone then
    []
  else
    numberChecks rt field.constraints field.name value ++
    stringChecks rt field.constraints field.name value ++
    collectionChecks field.constraints field.name value ++
    enumCheck rt field.constraints field.name value

/-- Convenience constructor used by the theorems: a binding whose instance
holds exactly the field's attribute. -/
def mkBinding (f : PyField) (v : PyValue) : FieldBinding :=
  { field := f, inst := { attrs := [(f.name, v)] } }

/-- Embedding of `PyModel` (`pymodel.py` lines 13-33).  Note: the dataclass
declares no `validator` attribute; see `pyModelFieldNames` below. -/
structure PyModel where
  name : String
  fields : List PyField
  title : String
  description : Option String := Option.none
  frozen : Bool := false
  metadata : List (String × PyValue) := []

/-- The attribute names declared by the `PyModel` dataclass
(`pymodel.py` lines 17-33), in declaration order. -/
def pyModelFieldNames : List String :=
  ["name", "fields", "title", "description", "frozen", "metadata"]

/-- The keyword arguments `pydantic_adapter.to_pymodel` passes to the
`PyModel` constructor (`pydantic_adapter.py` lines 71-79). -/
def toPymodelKwargNames : List String :=
  ["name", "fields", "title", "description", "frozen", "metadata", "validator"]

/-- Embedding of `PyModel.get_fields` (`pymodel.py` lines 74-111):
sequential filters, one per supplied argument. -/
def PyModel.get_fields (m : PyModel) (required hidden readonly deprecated : Option Bool)
    (field_type : Option String) : List PyField :=
  let result := m.fields
  let result :=
    match required with
    | some r => result.filter (fun f => f.is_required == r)
    | Option.none => result
  let result :=
    match hidden with
    | some h => result.filter (fun f => f.hidden == h)
    | Option.none => result
  let result :=
    match readonly with
    | some r => result.filter (fun f => f.readonly == r)
    | Option.none => result
  let result :=
    match deprecated with
    | some d => result.filter (fun f => f.deprecated == d)
    | Option.none => result
  let result :=
    match field_type with
    | some t => result.filter (fun f => f.field_type == some t)
    | Option.none => result
  result

/-- Embedding of `ModelBinding` (`bindings.py` lines 250-263). -/
structure ModelBinding where
  model : PyModel
  inst : PyInstance
  fields : List FieldBinding := []
  ui_state : List (String × PyValue) := []

/-- Embedding of `ModelBinding.get_field_binding` (`bindings.py` lines
309-322): linear first-match scan, `KeyError` message on failure modelled as
the `Except.error` string. -/
def ModelBinding.get_field_binding (mb : ModelBinding) (name : String) :
    Except String FieldBinding :=
  match mb.fields.find? (fun b => b.field.name == name) with
  | some b => Except.ok b
  | Option.none =>
    Except.error ("Field " ++ pyRepr name ++ " not found in model " ++ pyRepr mb.model.name)

/-- Embedding of `PyField._create_primitive_type_default`
(`pyfield.py` lines 331-378). -/
def PyField.create_primitive_type_default (rt : PyRuntime) (f : PyField)
    (typ : TypeTag) : PyValue :=
  match typ with
  | .str =>
    match f.constraints.min_length with
    | some n => if n ≠ 0 ∧ 0 < n then PyValue.str (spacesStr n) else PyValue.str ""
    | Option.none => PyValue.str ""
  | .int =>
    match f.constraints.min_value with
    | some m => if 0 < m then PyValue.int (pyIntOfRat m) else PyValue.int 0
    | Option.none => PyValue.int 0
  | .float =>
    match f.constraints.min_value with
    | some m => if 0 < m then PyValue.float m else PyValue.float 0
    | Option.none => PyValue.float 0
  | .bool => PyValue.bool false
  | .decimal =>
    match f.constraints.min_value with
    | some m => if 0 < m then PyValue.decimal m else PyValue.decimal 0
    | Option.none => PyValue.decimal 0
  | .date => rt.now
  | .datetime => rt.now
  | .time => rt.nowTime
  | .enumT members => members.head?.getD PyValue.none
  | .modelClass ctor => ctor.getD PyValue.none
  | _ => PyValue.none

/-- Embedding of `PyField._create_default_based_on_type`
(`pyfield.py` lines 294-329). -/
def PyField.create_default_based_on_type (rt : PyRuntime) (f : PyField) : PyValue :=
  match f.raw_type with
  | .literal vals => vals.head?.getD PyValue.none
  | .unionT args =>
    if args.any TypeTag.isNoneType then
      match args.filter (fun t => !t.isNoneType) with
      | t :: _ => f.create_primitive_type_default rt t
      | [] => PyValue.none
    else
      match args with
      | t :: _ => f.create_primitive_type_default rt t
      | [] => PyValue.none
  | .listT => PyValue.list []
  | .dictT => PyValue.dict []
  | .setT => PyValue.set []
  | .tupleT => PyValue.tuple []
  | t => f.create_primitive_type_default rt t

/-- Embedding of `PyField.get_initial_value` (`pyfield.py` lines 272-292);
`if self.examples:` is Python truthiness (present and non-empty). -/
def PyField.get_initial_value (f : PyField) (rt : PyRuntime) : PyValue :=
  match f.default with
  | some v => v
  | Option.none =>
    match f.examples with
    | some (e :: _) => e
    | _ => f.create_default_based_on_type rt

/-- The dict-valued metadata arguments of a Python `Annotated[...]` type; the
source loop in `extract_from_annotated` skips non-dict arguments, so only the
dict arguments are represented. -/
structure AnnotatedType where
  args : List (List (String × PyValue))

/-- The metadata-scanning part of `extract_from_annotated`
(`pyfield.py` lines 35-58): the first dict argument containing the key
supplies the value, else `None` (found-`None` and absent coincide, as in the
source, whose accumulator starts at `None`). -/
def extractFromAnnotated (args : List (List (String × PyValue))) (key : String) : PyValue :=
  match args.find? (fun d => (d.lookup key).isSome) with
  | some d => (d.lookup key).getD PyValue.none
  | Option.none => PyValue.none

/-- The parts of a `fieldz.Field` (after `parse_annotated()`) that the
placeholder-resolution block of `PyField.from_fieldz` reads. -/
structure FieldzField where
  metadata : List (String × PyValue) := []
  annotated_type : Option AnnotatedType := Option.none

/-- Does the metadata dict hold a `json_schema_extra` dict containing the
given key (the second branch condition of the placeholder chain)? -/
def jseLookup (md : List (String × PyValue)) (key : String) : Option PyValue :=
  match md.lookup "json_schema_extra" with
  | some (PyValue.dict d) => d.lookup key
  | _ => Option.none

/-- Embedding of the placeholder-resolution block of `PyField.from_fieldz`
(`pyfield.py` lines 168-189): an `elif` chain over (1) direct metadata,
(2) `json_schema_extra`, (3) the annotated type's `placeholder` tag, and
(4) the first example; `PyValue.none` is the absent placeholder.  Branch (4)
is an `elif` after the `elif fieldz_field.annotated_type:` test, exactly as
in the source. -/
def fromFieldzPlaceholder (rt : PyRuntime) (f : FieldzField) : PyValue :=
  match f.metadata.lookup "placeholder" with
  | some v => v
  | Option.none =>
    match jseLookup f.metadata "placeholder" with
    | some v => v
    | Option.none =>
      match f.annotated_type with
      | some ann => extractFromAnnotated ann.args "placeholder"
      | Option.none =>
        match f.metadata.lookup "examples" with
        | some (PyValue.list (e :: _)) =>
          if e.isNone then PyValue.none else PyValue.str (rt.pyStr e)
        | _ => PyValue.none

/-- Embedding of the placeholder expression of `pydantic_adapter.to_pyfield`
(`pydantic_adapter.py` lines 140-143): only the first example is consulted. -/
def toPyfieldPlaceholder (rt : PyRuntime) (examples : Option (List PyValue)) :
    Option PyValue :=
  match examples with
  | some (e :: _) => if e.isNone then Option.none else some (PyValue.str (rt.pyStr e))
  | _ => Option.none

/-- Restriction of a constraint set to its numeric fields (the fields the
`# Number constraints` block reads). -/
def Constraints.numericOnly (c : Constraints) : Constraints :=
  { min_value := c.min_value, max_value := c.max_value,
    exclusive_min := c.exclusive_min, exclusive_max := c.exclusive_max,
    multiple_of := c.multiple_of }

/-- Restriction of a constraint set to its text fields. -/
def Constraints.textOnly (c : Constraints) : Constraints :=
  { min_length := c.min_length, max_length := c.max_length, pattern := c.pattern }

/-- Restriction of a constraint set to its collection fields. -/
def Constraints.collectionOnly (c : Constraints) : Constraints :=
  { min_items := c.min_items, max_items := c.max_items }

/-- Restriction of a constraint set to its enumeration field. -/
def Constraints.enumOnly (c : Constraints) : Constraints :=
  { allowed_values := c.allowed_values }

/-- Replace the constraints of a binding's field descriptor. -/
def FieldBinding.withConstraints (b : FieldBinding) (c : Constraints) : FieldBinding :=
  { b with field := { b.field with constraints := c } }

/-- A concrete runtime instantiation used by witnesses and counterexamples. -/
def rt0 : PyRuntime :=
  { reMatch := fun _ _ => true
    pyStr := fun v =>
      match v with
      | PyValue.str s => s
      | _ => ""
    showRat := fun _ => ""
    now := PyValue.none
    nowTime := PyValue.none }

theorem mkBinding_value (f : PyField) (v : PyValue) : (mkBinding f v).value = v := by
  simp [mkBinding, FieldBinding.value, PyInstance.getattrD, List.lookup]

theorem withConstraints_value (b : FieldBinding) (c : Constraints) :
    (b.withConstraints c).value = b.value := rfl

theorem validate_of_not_none (rt : PyRuntime) (b : FieldBinding)
    (h : b.value.isNone = false) :
    b.validate rt =
      numberChecks rt b.field.constraints b.field.name b.value ++
      stringChecks rt b.field.constraints b.field.name b.value ++
      collectionChecks b.field.constraints b.field.name b.value ++
      enumCheck rt b.field.constraints b.field.name b.value := by
  simp [FieldBinding.validate, h]

theorem stringChecks_of_no_text_constraints (rt : PyRuntime) (c : Constraints)
    (name : String) (v : PyValue) (h1 : c.min_length = Option.none)
    (h2 : c.max_length = Option.none) (h3 : c.pattern = Option.none) :
    stringChecks rt c name v = [] := by
  unfold stringChecks
  cases v <;> simp [h1, h2, h3]

theorem numberChecks_of_no_numeric_constraints (rt : PyRuntime) (c : Constraints)
    (name : String) (v : PyValue) (h1 : c.min_value = Option.none)
    (h2 : c.max_value = Option.none) (h3 : c.multiple_of = Option.none) :
    numberChecks rt c name v = [] := by
  unfold numberChecks
  cases hv : v.asNumber <;> simp [h1, h2, h3]

theorem collectionChecks_of_no_item_constraints (c : Constraints)
    (name : String) (v : PyValue) (h1 : c.min_items = Option.none)
    (h2 : c.max_items = Option.none) :
    collectionChecks c name v = [] := by
  unfold collectionChecks
  cases v <;> simp [h1, h2]

theorem enumCheck_of_no_allowed_values (rt : PyRuntime) (c : Constraints)
    (name : String) (v : PyValue) (h : c.allowed_values = Option.none) :
    enumCheck rt c name v = [] := by
  unfold enumCheck
  simp [h]

/-- Claim C1: the spec (and both in-repo consumers, `ModelBinding.validate`
reading `self.model.validator` and `pydantic_adapter.to_pymodel` passing
`validator=` to the constructor) require `PyModel` to carry an optional
`validator`, but the `PyModel` dataclass declares no such attribute: the
keyword argument list of `to_pymodel` is not contained in the dataclass's
attribute list. -/
theorem pymodel_validator_not_declared :
    "validator" ∈ toPymodelKwargNames ∧ "validator" ∉ pyModelFieldNames := by
  constructor
  · simp [toPymodelKwargNames]
  · simp [pyModelFieldNames]

/-- Claim C2: for a `FieldBinding` whose current value is `None`, `validate`
returns exactly the one "missing" error when the field has no default and is
required, and the empty list in every other case. -/
theorem validate_null_value (rt : PyRuntime) (b : FieldBinding)
    (h : b.value = PyValue.none) :
    (b.field.has_default = false → b.field.is_required = true →
      b.validate rt =
        [mkDetail "value_error.missing" "This field is required"
          b.field.name PyValue.none []])
    ∧ (b.field.has_default = true ∨ b.field.is_required = false →
      b.validate rt = []) := by
  constructor
  · intro h1 h2
    simp [FieldBinding.validate, h, h1, h2, PyValue.isNone]
  · intro h1
    rcases h1 with h1 | h1 <;> simp [FieldBinding.validate, h, h1, PyValue.isNone]

theorem validate_null_value_witness :
    (mkBinding { name := "f" } PyValue.none).value = PyValue.none ∧
    (mkBinding { name := "f" } PyValue.none).validate rt0 =
      [mkDetail "value_error.missing" "This field is required" "f" PyValue.none []] :=
  ⟨mkBinding_value _ _,
    (validate_null_value rt0 (mkBinding { name := "f" } PyValue.none)
      (mkBinding_value _ _)).1 rfl rfl⟩

/-- Claim C5: in `Constraints.from_fieldz`, a present `gt` sets `min_value`
with `exclusive_min=true`; `ge` sets `min_value` with `exclusive_min=false`
only when `gt` is absent (so from a well-formed input at most one of them
applies, with `gt` taking precedence even if both were present); `lt`/`le`
act the same way on `max_value`/`exclusive_max`. -/
theorem from_fieldz_bound_mapping :
    (∀ (fz : FieldzConstraints) (g : ℚ), fz.gt = some g →
      (Constraints.from_fieldz (some fz)).min_value = some g ∧
      (Constraints.from_fieldz (some fz)).exclusive_min = true)
    ∧ (∀ (fz : FieldzConstraints) (g : ℚ), fz.gt = Option.none → fz.ge = some g →
      (Constraints.from_fieldz (some fz)).min_value = some g ∧
      (Constraints.from_fieldz (some fz)).exclusive_min = false)
    ∧ (∀ (fz : FieldzConstraints) (l : ℚ), fz.lt = some l →
      (Constraints.from_fieldz (some fz)).max_value = some l ∧
      (Constraints.from_fieldz (some fz)).exclusive_max = true)
    ∧ (∀ (fz : FieldzConstraints) (l : ℚ), fz.lt = Option.none → fz.le = some l →
      (Constraints.from_fieldz (some fz)).max_value = some l ∧
      (Constraints.from_fieldz (some fz)).exclusive_max = false) := by
  refine ⟨?_, ?_, ?_, ?_⟩ <;> intro fz v h1 <;>
    first
    | (intro h2; constructor <;> simp [Constraints.from_fieldz, h1, h2])
    | (constructor <;> simp [Constraints.from_fieldz, h1])

theorem from_fieldz_bound_mapping_witness :
    (Constraints.from_fieldz (some { gt := some 5 })).min_value = some 5 ∧
    (Constraints.from_fieldz (some { gt := some 5 })).exclusive_min = true ∧
    (Constraints.from_fieldz (some { ge := some 7 })).min_value = some 7 ∧
    (Constraints.from_fieldz (some { ge := some 7 })).exclusive_min = false :=
  ⟨(from_fieldz_bound_mapping.1 { gt := some 5 } 5 rfl).1,
   (from_fieldz_bound_mapping.1 { gt := some 5 } 5 rfl).2,
   (from_fieldz_bound_mapping.2.1 { ge := some 7 } 7 rfl rfl).1,
   (from_fieldz_bound_mapping.2.1 { ge := some 7 } 7 rfl rfl).2⟩

theorem mkBinding_field (f : PyField) (v : PyValue) : (mkBinding f v).field = f := rfl

theorem withConstraints_field_constraints (b : FieldBinding) (c : Constraints) :
    (b.withConstraints c).field.constraints = c := rfl

theorem withConstraints_field_name (b : FieldBinding) (c : Constraints) :
    (b.withConstraints c).field.name = b.field.name := rfl

theorem asNumber_not_none {v : PyValue} {q : ℚ} (h : v.asNumber = some q) :
    v.isNone = false := by
  cases v <;> simp_all [PyValue.asNumber, PyValue.isNone]

theorem validate_numeric_only (rt : PyRuntime) (f : PyField) (v : PyValue) (q : ℚ)
    (hq : v.asNumber = some q)
    (h1 : f.constraints.min_length = Option.none)
    (h2 : f.constraints.max_length = Option.none)
    (h3 : f.constraints.pattern = Option.none)
    (h4 : f.constraints.min_items = Option.none)
    (h5 : f.constraints.max_items = Option.none)
    (h6 : f.constraints.allowed_values = Option.none) :
    (mkBinding f v).validate rt = numberChecks rt f.constraints f.name v := by
  rw [validate_of_not_none rt _ (by rw [mkBinding_value]; exact asNumber_not_none hq)]
  simp only [mkBinding_value, mkBinding_field]
  rw [stringChecks_of_no_text_constraints rt _ _ _ h1 h2 h3,
    collectionChecks_of_no_item_constraints _ _ _ h4 h5,
    enumCheck_of_no_allowed_values rt _ _ _ h6]
  simp

/-- Claim C3: for numeric values, each set min/max bound is compared
strictly or non-strictly according to its exclusivity flag with a
distinctly-kinded error per violated bound; `multiple_of` emits an error
exactly when the value's modulus is non-zero; in particular with
`min_value=5, exclusive_min=False` the value `5` passes, `4` yields exactly
one `not_ge` error, and `5.0` passes. -/
theorem numeric_constraint_checks (rt : PyRuntime) :
    (∀ (name : String) (m q : ℚ) (excl : Bool) (v : PyValue), v.asNumber = some q →
      (mkBinding { name := name
                   constraints := { min_value := some m, exclusive_min := excl } }
          v).validate rt =
        (if excl then
          (if q ≤ m then
            [mkDetail "value_error.number.not_gt" ("Must be greater than " ++ rt.showRat m)
              name v [("limit_value", PyValue.float m)]]
          else [])
        else
          (if q < m then
            [mkDetail "value_error.number.not_ge"
              ("Must be greater than or equal to " ++ rt.showRat m)
              name v [("limit_value", PyValue.float m)]]
          else [])))
    ∧ (∀ (name : String) (m q : ℚ) (excl : Bool) (v : PyValue), v.asNumber = some q →
      (mkBinding { name := name
                   constraints := { max_value := some m, exclusive_max := excl } }
          v).validate rt =
        (if excl then
          (if q ≥ m then
            [mkDetail "value_error.number.not_lt" ("Must be less than " ++ rt.showRat m)
              name v [("limit_value", PyValue.float m)]]
          else [])
        else
          (if q > m then
            [mkDetail "value_error.number.not_le"
              ("Must be less than or equal to " ++ rt.showRat m)
              name v [("limit_value", PyValue.float m)]]
          else [])))
    ∧ (∀ (name : String) (m q : ℚ) (v : PyValue), v.asNumber = some q →
      (mkBinding { name := name, constraints := { multiple_of := some m } } v).validate rt =
        (if pymod q m ≠ 0 then
          [mkDetail "value_error.number.not_multiple" ("Must be a multiple of " ++ rt.showRat m)
            name v [("multiple_of", PyValue.float m)]]
        else []))
    ∧ (mkBinding { name := "x", constraints := { min_value := some 5 } }
        (PyValue.int 5)).validate rt = []
    ∧ (mkBinding { name := "x", constraints := { min_value := some 5 } }
        (PyValue.int 4)).validate rt =
        [mkDetail "value_error.number.not_ge" ("Must be greater than or equal to " ++ rt.showRat 5)
          "x" (PyValue.int 4) [("limit_value", PyValue.float 5)]]
    ∧ (mkBinding { name := "x", constraints := { min_value := some 5 } }
        (PyValue.float 5)).validate rt = [] := by
  refine ⟨?_, ?_, ?_, ?_, ?_, ?_⟩
  · intro name m q excl v hv
    rw [validate_numeric_only rt _ v q hv rfl rfl rfl rfl rfl rfl]
    unfold numberChecks
    simp only [hv]
    cases excl
    · simp
    · by_cases hq : q ≤ m <;> simp [hq]
  · intro name m q excl v hv
    rw [validate_numeric_only rt _ v q hv rfl rfl rfl rfl rfl rfl]
    unfold numberChecks
    simp only [hv]
    cases excl
    · simp [gt_iff_lt]
    · by_cases hq : m ≤ q <;> simp [hq, ge_iff_le]
  · intro name m q v hv
    rw [validate_numeric_only rt _ v q hv rfl rfl rfl rfl rfl rfl]
    unfold numberChecks
    simp only [hv]
    simp
  · rw [validate_numeric_only rt _ _ 5 (by norm_num [PyValue.asNumber]) rfl rfl rfl rfl rfl rfl]
    unfold numberChecks
    norm_num [PyValue.asNumber]
  · rw [validate_numeric_only rt _ _ 4 (by norm_num [PyValue.asNumber]) rfl rfl rfl rfl rfl rfl]
    unfold numberChecks
    norm_num [PyValue.asNumber]
  · rw [validate_numeric_only rt _ _ 5 (by norm_num [PyValue.asNumber]) rfl rfl rfl rfl rfl rfl]
    unfold numberChecks
    norm_num [PyValue.asNumber]

theorem numeric_constraint_checks_witness :
    (PyValue.int 4).asNumber = some 4 ∧
    (mkBinding { name := "x"
                 constraints := { min_value := some 5, exclusive_min := false } }
      (PyValue.int 4)).validate rt0 =
      [mkDetail "value_error.number.not_ge" ("Must be greater than or equal to " ++ rt0.showRat 5)
        "x" (PyValue.int 4) [("limit_value", PyValue.float 5)]] :=
  ⟨by norm_num [PyValue.asNumber],
   by
    have h := (numeric_constraint_checks rt0).1 "x" 5 4 false (PyValue.int 4)
      (by norm_num [PyValue.asNumber])
    norm_num at h
    exact h⟩

theorem numberChecks_numericOnly (rt : PyRuntime) (c : Constraints) (name : String)
    (v : PyValue) : numberChecks rt c.numericOnly name v = numberChecks rt c name v := rfl

theorem stringChecks_textOnly (rt : PyRuntime) (c : Constraints) (name : String)
    (v : PyValue) : stringChecks rt c.textOnly name v = stringChecks rt c name v := rfl

theorem collectionChecks_collectionOnly (c : Constraints) (name : String)
    (v : PyValue) : collectionChecks c.collectionOnly name v = collectionChecks c name v := rfl

theorem enumCheck_enumOnly (rt : PyRuntime) (c : Constraints) (name : String)
    (v : PyValue) : enumCheck rt c.enumOnly name v = enumCheck rt c name v := rfl

/-- Claim C4: for a non-null value, the numeric, text, collection and
enumeration checks are independent (each is exactly the validation run with
only its own constraint group) and cumulative (their concatenation), and a
single call can return several errors for one value (two here); only the
required check short-circuits. -/
theorem checks_independent_cumulative :
    (∀ (rt : PyRuntime) (b : FieldBinding), b.value.isNone = false →
      b.validate rt =
        (b.withConstraints b.field.constraints.numericOnly).validate rt ++
        (b.withConstraints b.field.constraints.textOnly).validate rt ++
        (b.withConstraints b.field.constraints.collectionOnly).validate rt ++
        (b.withConstraints b.field.constraints.enumOnly).validate rt)
    ∧ (∀ rt : PyRuntime,
      ((mkBinding { name := "n"
                    constraints := { min_value := some 5, multiple_of := some 3 } }
        (PyValue.int 4)).validate rt).length = 2) := by
  constructor
  · intro rt b h
    rw [validate_of_not_none rt b h,
      validate_of_not_none rt (b.withConstraints b.field.constraints.numericOnly) h,
      validate_of_not_none rt (b.withConstraints b.field.constraints.textOnly) h,
      validate_of_not_none rt (b.withConstraints b.field.constraints.collectionOnly) h,
      validate_of_not_none rt (b.withConstraints b.field.constraints.enumOnly) h]
    simp only [withConstraints_field_constraints, withConstraints_field_name,
      withConstraints_value]
    rw [numberChecks_numericOnly, stringChecks_textOnly,
      collectionChecks_collectionOnly, enumCheck_enumOnly,
      stringChecks_of_no_text_constraints rt b.field.constraints.numericOnly
        b.field.name b.value rfl rfl rfl,
      collectionChecks_of_no_item_constraints b.field.constraints.numericOnly
        b.field.name b.value rfl rfl,
      enumCheck_of_no_allowed_values rt b.field.constraints.numericOnly
        b.field.name b.value rfl,
      numberChecks_of_no_numeric_constraints rt b.field.constraints.textOnly
        b.field.name b.value rfl rfl rfl,
      collectionChecks_of_no_item_constraints b.field.constraints.textOnly
        b.field.name b.value rfl rfl,
      enumCheck_of_no_allowed_values rt b.field.constraints.textOnly
        b.field.name b.value rfl,
      numberChecks_of_no_numeric_constraints rt b.field.constraints.collectionOnly
        b.field.name b.value rfl rfl rfl,
      stringChecks_of_no_text_constraints rt b.field.constraints.collectionOnly
        b.field.name b.value rfl rfl rfl,
      enumCheck_of_no_allowed_values rt b.field.constraints.collectionOnly
        b.field.name b.value rfl,
      numberChecks_of_no_numeric_constraints rt b.field.constraints.enumOnly
        b.field.name b.value rfl rfl rfl,
      stringChecks_of_no_text_constraints rt b.field.constraints.enumOnly
        b.field.name b.value rfl rfl rfl,
      collectionChecks_of_no_item_constraints b.field.constraints.enumOnly
        b.field.name b.value rfl rfl]
    simp
  · intro rt
    rw [validate_numeric_only rt _ _ 4 (by norm_num [PyValue.asNumber]) rfl rfl rfl rfl rfl rfl]
    unfold numberChecks
    norm_num [PyValue.asNumber, pymod]

theorem checks_independent_cumulative_witness :
    (mkBinding { name := "n"
                 constraints := { min_value := some 5, multiple_of := some 3 } }
      (PyValue.int 4)).value.isNone = false ∧
    (mkBinding { name := "n"
                 constraints := { min_value := some 5, multiple_of := some 3 } }
      (PyValue.int 4)).validate rt0 =
      ((mkBinding { name := "n"
                    constraints := { min_value := some 5, multiple_of := some 3 } }
        (PyValue.int 4)).withConstraints
          { min_value := some 5, multiple_of := some 3 : Constraints }.numericOnly).validate rt0 ++
      ((mkBinding { name := "n"
                    constraints := { min_value := some 5, multiple_of := some 3 } }
        (PyValue.int 4)).withConstraints
          { min_value := some 5, multiple_of := some 3 : Constraints }.textOnly).validate rt0 ++
      ((mkBinding { name := "n"
                    constraints := { min_value := some 5, multiple_of := some 3 } }
        (PyValue.int 4)).withConstraints
          { min_value := some 5, multiple_of := some 3 : Constraints }.collectionOnly).validate rt0 ++
      ((mkBinding { name := "n"
                    constraints := { min_value := some 5, multiple_of := some 3 } }
        (PyValue.int 4)).withConstraints
          { min_value := some 5, multiple_of := some 3 : Constraints }.enumOnly).validate rt0 :=
  ⟨rfl, checks_independent_cumulative.1 rt0 _ rfl⟩

/-- Claim C7: `get_initial_value` follows the priority chain: explicit
default when `has_default`, else first example when examples are non-empty,
else a type-synthesized value, where text yields `" "` repeated `min_length`
times when a positive `min_length` exists (else empty text), integer/float
yield `min_value` coerced to the numeric type when a positive `min_value`
exists (else zero), and boolean yields false. -/
theorem get_initial_value_priority :
    (∀ (rt : PyRuntime) (f : PyField) (v : PyValue), f.default = some v →
      f.get_initial_value rt = v)
    ∧ (∀ (rt : PyRuntime) (f : PyField) (e : PyValue) (rest : List PyValue),
      f.default = Option.none → f.examples = some (e :: rest) →
      f.get_initial_value rt = e)
    ∧ (∀ (rt : PyRuntime) (f : PyField), f.default = Option.none →
      f.examples = Option.none ∨ f.examples = some [] →
      (f.raw_type = TypeTag.str →
        f.get_initial_value rt =
          PyValue.str (match f.constraints.min_length with
            | some n => if 0 < n then spacesStr n else ""
            | Option.none => ""))
      ∧ (f.raw_type = TypeTag.int →
        f.get_initial_value rt =
          PyValue.int (match f.constraints.min_value with
            | some m => if 0 < m then pyIntOfRat m else 0
            | Option.none => 0))
      ∧ (f.raw_type = TypeTag.float →
        f.get_initial_value rt =
          PyValue.float (match f.constraints.min_value with
            | some m => if 0 < m then m else 0
            | Option.none => 0))
      ∧ (f.raw_type = TypeTag.bool →
        f.get_initial_value rt = PyValue.bool false)) := by
  refine ⟨?_, ?_, ?_⟩
  · intro rt f v h
    simp [PyField.get_initial_value, h]
  · intro rt f e rest h1 h2
    simp [PyField.get_initial_value, h1, h2]
  · intro rt f h1 h2
    have hbase : f.get_initial_value rt = f.create_default_based_on_type rt := by
      rcases h2 with h2 | h2 <;> simp [PyField.get_initial_value, h1, h2]
    refine ⟨?_, ?_, ?_, ?_⟩ <;> intro ht <;> rw [hbase] <;>
      simp only [PyField.create_default_based_on_type, ht]
    · rcases hml : f.constraints.min_length with _ | n
      · simp [PyField.create_primitive_type_default, hml]
      · by_cases h0 : 0 < n
        · have hne : n ≠ 0 := by omega
          simp [PyField.create_primitive_type_default, hml, h0, hne]
        · simp [PyField.create_primitive_type_default, hml, h0]
    · rcases hmv : f.constraints.min_value with _ | q
      · simp [PyField.create_primitive_type_default, hmv]
      · by_cases h0 : 0 < q <;> simp [PyField.create_primitive_type_default, hmv, h0]
    · rcases hmv : f.constraints.min_value with _ | q
      · simp [PyField.create_primitive_type_default, hmv]
      · by_cases h0 : 0 < q <;> simp [PyField.create_primitive_type_default, hmv, h0]
    · simp [PyField.create_primitive_type_default]

theorem get_initial_value_priority_witness :
    ({ name := "s", raw_type := TypeTag.str, constraints := { min_length := some 3 } }
      : PyField).default = Option.none ∧
    (({ name := "s", raw_type := TypeTag.str, constraints := { min_length := some 3 } }
      : PyField).examples = Option.none ∨
      ({ name := "s", raw_type := TypeTag.str, constraints := { min_length := some 3 } }
      : PyField).examples = some []) ∧
    ({ name := "s", raw_type := TypeTag.str, constraints := { min_length := some 3 } }
      : PyField).get_initial_value rt0 = PyValue.str (spacesStr 3) :=
  ⟨rfl, Or.inl rfl, by
    have h := ((get_initial_value_priority.2.2 rt0
      { name := "s", raw_type := TypeTag.str, constraints := { min_length := some 3 } }
      rfl (Or.inl rfl)).1 rfl)
    simpa using h⟩

/-- Claim C8: `get_fields` returns exactly the subset of `fields` satisfying
the conjunction of all supplied equality filters, in the original order (a
single pass of `List.filter` over `fields`); an unsupplied filter is not
applied. -/
theorem get_fields_conjunction (m : PyModel)
    (required hidden readonly deprecated : Option Bool) (field_type : Option String) :
    m.get_fields required hidden readonly deprecated field_type =
      m.fields.filter (fun f =>
        (required.all fun r => f.is_required == r) &&
        (hidden.all fun h => f.hidden == h) &&
        (readonly.all fun r => f.readonly == r) &&
        (deprecated.all fun d => f.deprecated == d) &&
        (field_type.all fun t => f.field_type == some t)) := by
  unfold PyModel.get_fields
  cases required <;> cases hidden <;> cases readonly <;> cases deprecated <;>
    cases field_type <;>
    simp [List.filter_filter, Bool.and_comm, Bool.and_assoc, Bool.and_left_comm]

theorem find?_eq_some_split {α : Type} {p : α → Bool} {l : List α} {a : α}
    (h : l.find? p = some a) :
    p a = true ∧ ∃ pre post, l = pre ++ a :: post ∧ ∀ x ∈ pre, p x = false := by
  induction l with
  | nil => simp at h
  | cons x xs ih =>
    by_cases hx : p x
    · rw [List.find?_cons_of_pos _ hx] at h
      injection h with h
      subst h
      exact ⟨hx, [], xs, rfl, by simp⟩
    · rw [List.find?_cons_of_neg _ hx] at h
      obtain ⟨ha, pre, post, hl, hpre⟩ := ih h
      refine ⟨ha, x :: pre, post, by simp [hl], ?_⟩
      intro y hy
      rcases List.mem_cons.mp hy with rfl | hy
      · simpa using hx
      · exact hpre y hy

/-- Claim C9: `get_field_binding` performs a linear first-match lookup by
exact field-name equality, and on failure produces the not-found error whose
message names both the requested field and the model. -/
theorem get_field_binding_linear (mb : ModelBinding) (name : String) :
    (∀ b, mb.get_field_binding name = Except.ok b →
      b.field.name = name ∧
      ∃ pre post, mb.fields = pre ++ b :: post ∧ ∀ x ∈ pre, x.field.name ≠ name)
    ∧ ((∀ b ∈ mb.fields, b.field.name ≠ name) →
      mb.get_field_binding name =
        Except.error ("Field " ++ pyRepr name ++ " not found in model " ++
          pyRepr mb.model.name))
    ∧ (∀ b ∈ mb.fields, b.field.name = name →
      ∃ b2, mb.get_field_binding name = Except.ok b2 ∧ b2.field.name = name) := by
  refine ⟨?_, ?_, ?_⟩
  · intro b hb
    unfold ModelBinding.get_field_binding at hb
    cases hfind : mb.fields.find? (fun fb => fb.field.name == name) with
    | none => simp [hfind] at hb
    | some b2 =>
      simp only [hfind] at hb
      injection hb with hb
      subst hb
      obtain ⟨hp, pre, post, hl, hpre⟩ := find?_eq_some_split hfind
      refine ⟨by simpa using hp, pre, post, hl, ?_⟩
      intro x hx
      simpa using hpre x hx
  · intro hall
    unfold ModelBinding.get_field_binding
    rw [List.find?_eq_none.mpr]
    intro x hx
    simpa using hall x hx
  · intro b hb hname
    cases hfind : mb.fields.find? (fun fb => fb.field.name == name) with
    | none =>
      have := List.find?_eq_none.mp hfind b hb
      simp [hname] at this
    | some b2 =>
      refine ⟨b2, ?_, ?_⟩
      · unfold ModelBinding.get_field_binding
        simp [hfind]
      · simpa using List.find?_some hfind

theorem get_field_binding_linear_witness :
    (∀ b ∈ ({ model := { name := "M", fields := [], title := "M" }
              inst := { attrs := [] } } : ModelBinding).fields, b.field.name ≠ "missing_name") ∧
    ({ model := { name := "M", fields := [], title := "M" }
       inst := { attrs := [] } } : ModelBinding).get_field_binding "missing_name" =
      Except.error ("Field " ++ pyRepr "missing_name" ++ " not found in model " ++ pyRepr "M") :=
  ⟨by simp,
   (get_field_binding_linear
     { model := { name := "M", fields := [], title := "M" }
       inst := { attrs := [] } } "missing_name").2.1 (by simp)⟩

theorem numberChecks_loc_input (rt : PyRuntime) (c : Constraints) (name : String)
    (v : PyValue) :
    ∀ d ∈ numberChecks rt c name v, d.loc = [LocStep.s name] ∧ d.input_value = v := by
  intro d hd
  unfold numberChecks at hd
  split at hd
  · exact absurd hd (List.not_mem_nil d)
  · simp only [List.mem_append] at hd
    rcases hd with (hd | hd) | hd <;>
      (split at hd <;>
        first
          | exact absurd hd (List.not_mem_nil d)
          | (split_ifs at hd <;>
              first
                | exact absurd hd (List.not_mem_nil d)
                | (simp only [List.mem_singleton] at hd; subst hd; exact ⟨rfl, rfl⟩)))

theorem stringChecks_loc_input (rt : PyRuntime) (c : Constraints) (name : String)
    (v : PyValue) :
    ∀ d ∈ stringChecks rt c name v, d.loc = [LocStep.s name] ∧ d.input_value = v := by
  intro d hd
  unfold stringChecks at hd
  split at hd
  · simp only [List.mem_append] at hd
    rcases hd with (hd | hd) | hd <;>
      (split at hd <;>
        first
          | exact absurd hd (List.not_mem_nil d)
          | (split_ifs at hd <;>
              first
                | exact absurd hd (List.not_mem_nil d)
                | (simp only [List.mem_singleton] at hd; subst hd; exact ⟨rfl, rfl⟩)))
  · exact absurd hd (List.not_mem_nil d)

theorem collectionChecks_loc_input (c : Constraints) (name : String) (v : PyValue) :
    ∀ d ∈ collectionChecks c name v, d.loc = [LocStep.s name] ∧ d.input_value = v := by
  intro d hd
  unfold collectionChecks at hd
  split at hd <;>
    first
      | exact absurd hd (List.not_mem_nil d)
      | (simp only [List.mem_append] at hd
         rcases hd with hd | hd <;>
           (split at hd <;>
             first
               | exact absurd hd (List.not_mem_nil d)
               | (split_ifs at hd <;>
                   first
                     | exact absurd hd (List.not_mem_nil d)
                     | (simp only [List.mem_singleton] at hd; subst hd; exact ⟨rfl, rfl⟩))))

theorem enumCheck_loc_input (rt : PyRuntime) (c : Constraints) (name : String)
    (v : PyValue) :
    ∀ d ∈ enumCheck rt c name v, d.loc = [LocStep.s name] ∧ d.input_value = v := by
  intro d hd
  unfold enumCheck at hd
  split at hd
  · split_ifs at hd <;>
      first
        | exact absurd hd (List.not_mem_nil d)
        | (simp only [List.mem_singleton] at hd; subst hd; exact ⟨rfl, rfl⟩)
  · exact absurd hd (List.not_mem_nil d)

/-- Claim C10: every error detail returned by `FieldBinding.validate` has
its location equal to the one-element path holding exactly the field's name
and its `input_value` equal to the binding's current value. -/
theorem validate_loc_and_input (rt : PyRuntime) (b : FieldBinding)
    (d : ValidationErrorDetail) (h : d ∈ b.validate rt) :
    d.loc = [LocStep.s b.field.name] ∧ d.input_value = b.value := by
  simp only [FieldBinding.validate] at h
  split at h
  · simp only [List.mem_singleton] at h
    subst h
    exact ⟨rfl, rfl⟩
  · split at h
    · exact absurd h (List.not_mem_nil d)
    · simp only [List.mem_append] at h
      rcases h with ((h | h) | h) | h
      · exact numberChecks_loc_input rt _ _ _ d h
      · exact stringChecks_loc_input rt _ _ _ d h
      · exact collectionChecks_loc_input _ _ _ d h
      · exact enumCheck_loc_input rt _ _ _ d h

theorem validate_loc_and_input_witness :
    (mkDetail "value_error.missing" "This field is required" "f" PyValue.none [] ∈
      (mkBinding { name := "f" } PyValue.none).validate rt0) ∧
    ((mkDetail "value_error.missing" "This field is required" "f" PyValue.none []).loc =
      [LocStep.s (mkBinding { name := "f" } PyValue.none).field.name] ∧
    (mkDetail "value_error.missing" "This field is required" "f" PyValue.none []).input_value =
      (mkBinding { name := "f" } PyValue.none).value) := by
  have hmem : mkDetail "value_error.missing" "This field is required" "f" PyValue.none [] ∈
      (mkBinding { name := "f" } PyValue.none).validate rt0 := by
    show mkDetail "value_error.missing" "This field is required" "f" PyValue.none [] ∈
      [mkDetail "value_error.missing" "This field is required" "f" PyValue.none []]
    exact List.mem_singleton.mpr rfl
  exact ⟨hmem, validate_loc_and_input rt0 _ _ hmem⟩

/-- Claim C6: evaluation of the placeholder-resolution code at the failing
input: a fieldz field carrying an annotated type with no placeholder tag and
a non-null first example resolves to no placeholder at all, although no
higher-priority source is available and the example text is available (as the
last conjunct shows for the pydantic path's example rendering); the `elif`
chain of `PyField.from_fieldz` never reaches the example fallback once
`annotated_type` is truthy. -/
theorem placeholder_skips_example_fallback :
    ({ metadata := [("examples", PyValue.list [PyValue.str "x"])]
       annotated_type := some { args := [] } } : FieldzField).metadata.lookup "placeholder" =
      Option.none ∧
    jseLookup [("examples", PyValue.list [PyValue.str "x"])] "placeholder" = Option.none ∧
    extractFromAnnotated [] "placeholder" = PyValue.none ∧
    fromFieldzPlaceholder rt0
      { metadata := [("examples", PyValue.list [PyValue.str "x"])]
        annotated_type := some { args := [] } } = PyValue.none ∧
    toPyfieldPlaceholder rt0 (some [PyValue.str "x"]) = some (PyValue.str "x") := by
  refine ⟨?_, ?_, ?_, ?_, ?_⟩ <;> rfl
